import Mathlib

/-!
Shallow embedding of the hospital-microgrid simulation
(`components/battery.py`, `components/solar.py`, `components/generator.py`,
`controller/microgrid_controller.py`, `controller/cyber_security_manager.py`,
`controller/safe_mode.py`, `controller/safety_invariants.py`,
`simulation/simulator.py`, `utils/validator.py`).

Numbers are modelled as rationals; the claims under study are about the
control logic and exact bookkeeping, not about binary floating point.
Side outputs (console prints, log files, aggregate counters) are not
needed by any theorem below and are omitted; everything that reaches the
per-step result records is embedded.
-/

set_option maxRecDepth 4000

/-! ## components/battery.py -/

structure Battery where
  capacity : ℚ
  soc : ℚ
  max_charge_kw : ℚ
  max_discharge_kw : ℚ
deriving DecidableEq, Repr

/-- `Battery.charge(power_kw, dt=1)`: stores `min(power_kw, max_charge_kw) * dt`
(clamping soc at 1.0) and returns that energy figure (not the stored amount). -/
def Battery.charge (b : Battery) (power_kw dt : ℚ) : ℚ × Battery :=
  let energy := min power_kw b.max_charge_kw * dt
  (energy, { b with soc := min 1 (b.soc + energy / b.capacity) })

/-- `Battery.discharge(power_kw, dt=1, min_soc=0.0)`: draws at most
`min(power_kw, max_discharge_kw) * dt`, limited by the energy above the
(clamped) reserve, and floors soc at the clamped `min_soc`. -/
def Battery.discharge (b : Battery) (power_kw dt min_soc : ℚ) : ℚ × Battery :=
  let energy := min power_kw b.max_discharge_kw * dt
  let min_soc' := max 0 (min 1 min_soc)
  let available_total := b.soc * b.capacity
  let reserve := min_soc' * b.capacity
  let available := max 0 (available_total - reserve)
  let actual := min energy available
  (actual, { b with soc := max min_soc' (b.soc - actual / b.capacity) })

/-! ## components/solar.py and components/generator.py -/

structure SolarPV where
  max_power_kw : ℚ
deriving DecidableEq, Repr

def SolarPV.get_power (s : SolarPV) (available_power_kw : ℚ) : ℚ :=
  min s.max_power_kw available_power_kw

structure DieselGenerator where
  max_power_kw : ℚ
  is_on : Bool
deriving DecidableEq, Repr

def DieselGenerator.start (g : DieselGenerator) : DieselGenerator :=
  { g with is_on := true }

def DieselGenerator.stop (g : DieselGenerator) : DieselGenerator :=
  { g with is_on := false }

/-! ## controller/microgrid_controller.py -/

inductive SystemState where
  | NORMAL
  | STRESSED
  | EMERGENCY
  | SAFE_MODE
deriving DecidableEq, Repr

def SystemState.value : SystemState → String
  | .NORMAL => "NORMAL"
  | .STRESSED => "STRESSED"
  | .EMERGENCY => "EMERGENCY"
  | .SAFE_MODE => "SAFE_MODE"

/-- The dict returned by `MicrogridController.decide`, with the
`use_battery` / `use_generator` entries the simulation loop adds
(`decision.setdefault` / the SAFE-MODE override). -/
structure Decision where
  generator_cmd : String
  battery_mode : String
  load_shed_level : ℤ
  state : String
  safe_mode : Bool
  reason : String
  use_battery : Bool
  use_generator : Bool
deriving DecidableEq, Repr

namespace MicrogridController

def SOC_NORMAL_MIN : ℚ := 7/10
def SOC_STRESSED_MIN : ℚ := 6/10
def SOC_EMERGENCY_MIN : ℚ := 4/10
def SOC_ABSOLUTE_MIN : ℚ := 3/10
def SOC_CRITICAL_PREEMPT : ℚ := 35/100
def POWER_DEFICIT_MARGIN : ℚ := 15/100

def LOAD_SHED_NONE : ℤ := 0
def LOAD_SHED_T3 : ℤ := 1
def LOAD_SHED_T2 : ℤ := 2
def LOAD_SHED_T1 : ℤ := 3

/-- `_safe_mode_action` -/
def safe_mode_action (reason : String) : Decision :=
  { generator_cmd := "START"
    battery_mode := "PROTECT"
    load_shed_level := LOAD_SHED_T1
    state := SystemState.SAFE_MODE.value
    safe_mode := true
    reason := reason
    use_battery := true
    use_generator := true }

/-- Python truthiness of the forecast argument:
`if load_forecast and generator_available` skips `None` and `[]`. -/
def forecastTruthy : Option (List ℚ) → Bool
  | some (_ :: _) => true
  | _ => false

/-- `sum(load_forecast) / len(load_forecast)` -/
def forecastMean : Option (List ℚ) → ℚ
  | some l => l.sum / l.length
  | none => 0

/-- Guard of branch 2 (AI-based predictive preemption). -/
def predictiveGuard (load_kw soc : ℚ) (load_forecast : Option (List ℚ))
    (generator_available : Bool) : Prop :=
  (forecastTruthy load_forecast && generator_available) = true ∧
    forecastMean load_forecast > load_kw * (11/10) ∧ soc < SOC_STRESSED_MIN

instance (load_kw soc : ℚ) (lf : Option (List ℚ)) (ga : Bool) :
    Decidable (predictiveGuard load_kw soc lf ga) :=
  inferInstanceAs (Decidable ((forecastTruthy lf && ga) = true ∧
    forecastMean lf > load_kw * (11/10) ∧ soc < SOC_STRESSED_MIN))

/-- Guard of branch 3 (hard SOC preemption). -/
def hardSocGuard (soc : ℚ) (generator_available : Bool) : Prop :=
  generator_available = true ∧ soc ≤ SOC_CRITICAL_PREEMPT

instance (soc : ℚ) (ga : Bool) : Decidable (hardSocGuard soc ga) :=
  inferInstanceAs (Decidable (ga = true ∧ soc ≤ SOC_CRITICAL_PREEMPT))

/-- Guard of branch 4 (power-deficit early generator start). -/
def deficitGuard (solar_kw load_kw : ℚ) (generator_available : Bool) : Prop :=
  load_kw - solar_kw > load_kw * POWER_DEFICIT_MARGIN ∧ generator_available = true

instance (solar_kw load_kw : ℚ) (ga : Bool) :
    Decidable (deficitGuard solar_kw load_kw ga) :=
  inferInstanceAs (Decidable
    (load_kw - solar_kw > load_kw * POWER_DEFICIT_MARGIN ∧ ga = true))

/-- `MicrogridController.decide`.  The controller's only cross-call state is
`self.state`; the embedding threads it explicitly and returns the updated
state next to the decision dict. -/
def decide (st : SystemState) (solar_kw load_kw : ℚ) (battery : Battery)
    (load_forecast : Option (List ℚ)) (generator_available cyber_anomaly : Bool) :
    SystemState × Decision :=
  if cyber_anomaly then
    (SystemState.SAFE_MODE,
      safe_mode_action "Cyber or sensor anomaly detected — entering SAFE_MODE")
  else
    let soc := battery.soc
    if predictiveGuard load_kw soc load_forecast generator_available then
      (st,
        { generator_cmd := "START"
          battery_mode := "DISCHARGE"
          load_shed_level := LOAD_SHED_NONE
          state := st.value
          safe_mode := false
          reason := "Predictive generator start based on AI load forecast; preventing future SOC collapse"
          use_battery := true
          use_generator := true })
    else if hardSocGuard soc generator_available then
      (SystemState.EMERGENCY,
        { generator_cmd := "START"
          battery_mode := "PROTECT"
          load_shed_level := LOAD_SHED_T2
          state := SystemState.EMERGENCY.value
          safe_mode := false
          reason := "Hard SOC preemption: generator forced ON before absolute SOC violation (hospital safety guarantee)"
          use_battery := true
          use_generator := true })
    else if deficitGuard solar_kw load_kw generator_available then
      (st,
        { generator_cmd := "START"
          battery_mode := "DISCHARGE"
          load_shed_level := LOAD_SHED_NONE
          state := st.value
          safe_mode := false
          reason := "Early generator start due to sustained power deficit; preventing rapid SOC collapse and voltage risk"
          use_battery := true
          use_generator := true })
    else
      let st' : SystemState :=
        if soc < SOC_EMERGENCY_MIN then .EMERGENCY
        else if soc < SOC_STRESSED_MIN then .STRESSED
        else .NORMAL
      match st' with
      | .NORMAL =>
        (SystemState.NORMAL,
          { generator_cmd := "STOP"
            battery_mode := "DISCHARGE"
            load_shed_level := LOAD_SHED_NONE
            state := SystemState.NORMAL.value
            safe_mode := false
            reason := "Battery SOC healthy; normal hospital operation"
            use_battery := true
            use_generator := true })
      | .STRESSED =>
        (SystemState.STRESSED,
          { generator_cmd := "START"
            battery_mode := "DISCHARGE"
            load_shed_level := LOAD_SHED_T3
            state := SystemState.STRESSED.value
            safe_mode := false
            reason := "Preventive generator start due to declining SOC; maintaining energy buffer for critical loads"
            use_battery := true
            use_generator := true })
      | _ =>
        (SystemState.EMERGENCY,
          { generator_cmd := if generator_available then "START" else "HOLD"
            battery_mode := "PROTECT"
            load_shed_level := LOAD_SHED_T2
            state := SystemState.EMERGENCY.value
            safe_mode := false
            reason := "Emergency condition: preserving life-critical hospital loads and preventing inverter starvation"
            use_battery := true
            use_generator := true })

end MicrogridController

/-! ## controller/cyber_security_manager.py -/

/-- One timestep's sensor readings as built by the simulation loop
(`sensor_data` dict); the loop always supplies all six fields. -/
structure SensorFrame where
  soc : ℚ
  soc_secure : ℚ
  load_kw : ℚ
  load_kw_secure : ℚ
  solar_kw : ℚ
  solar_kw_secure : ℚ
deriving DecidableEq, Repr

/-- Mutable state of `CyberSecurityManager` (the threshold attributes are
constants in the source and appear as the literals below). -/
structure CyberState where
  alert_active : Bool
  anomaly_now : Bool
  reason : Option String
  last_soc : Option ℚ
  last_load : Option ℚ
  last_solar : Option ℚ
deriving DecidableEq, Repr

namespace CyberSecurityManager

def initState : CyberState :=
  { alert_active := false, anomaly_now := false, reason := none
    last_soc := none, last_load := none, last_solar := none }

def max_soc_jump_per_step : ℚ := 8/100
def redundant_soc_mismatch : ℚ := 5/100
def redundant_load_mismatch_frac : ℚ := 10/100
def redundant_solar_mismatch_frac : ℚ := 15/100
def max_load_jump_kw : ℚ := 500
def max_solar_jump_kw : ℚ := 800

/-- `self._last_x is not None and abs(x - self._last_x) > bound`. -/
def jumpExceeds (last : Option ℚ) (cur bound : ℚ) : Prop :=
  match last with
  | some v => |cur - v| > bound
  | none => False

instance (last : Option ℚ) (cur bound : ℚ) : Decidable (jumpExceeds last cur bound) :=
  match last with
  | some v => inferInstanceAs (Decidable (|cur - v| > bound))
  | none => inferInstanceAs (Decidable False)

/-- One clause of the detection cascade: `if not anomaly and cond:
anomaly, reason = True, msg` (the first clause omits the redundant
`not anomaly`, which is vacuously true there). -/
def ruleStep (acc : Bool × Option String) (cond : Prop) [Decidable cond]
    (msg : String) : Bool × Option String :=
  if ¬acc.1 ∧ cond then (true, some msg) else acc

/-- `CyberSecurityManager.evaluate(sensor_data)`: the rule cascade, exactly
in source order.  Each rule fires only when no earlier rule has; the
`_last_*` attributes each update after their own signal's rules, so every
jump rule compares against the pre-call value. -/
def evaluate (m : CyberState) (d : SensorFrame) : CyberState × Bool :=
  let s1 := ruleStep (false, none) (d.soc < 0 ∨ d.soc > 1)
    "SOC sensor spoofing detected (out-of-range)"
  let s2 := ruleStep s1 (|d.soc - d.soc_secure| > redundant_soc_mismatch)
    "SOC sensor spoofing detected (mismatch vs secure channel)"
  let s3 := ruleStep s2 (jumpExceeds m.last_soc d.soc max_soc_jump_per_step)
    "SOC anomaly detected (implausible step change)"
  let s4 := ruleStep s3 (d.load_kw < 0)
    "Load sensor spoofing detected (negative)"
  let s5 := ruleStep s4
    (|d.load_kw - d.load_kw_secure| / max 1 |d.load_kw_secure| >
      redundant_load_mismatch_frac)
    "Load sensor spoofing detected (mismatch vs secure channel)"
  let s6 := ruleStep s5 (jumpExceeds m.last_load d.load_kw max_load_jump_kw)
    "Load anomaly detected (implausible step change)"
  let s7 := ruleStep s6 (d.solar_kw < 0)
    "Solar sensor spoofing detected (negative)"
  let s8 := ruleStep s7
    (|d.solar_kw - d.solar_kw_secure| / max 1 |d.solar_kw_secure| >
      redundant_solar_mismatch_frac)
    "Solar sensor spoofing detected (mismatch vs secure channel)"
  let s9 := ruleStep s8 (jumpExceeds m.last_solar d.solar_kw max_solar_jump_kw)
    "Solar anomaly detected (implausible step change)"
  let anomaly := s9.1
  let alert := m.alert_active || anomaly
  let m' : CyberState :=
    { alert_active := alert
      anomaly_now := anomaly
      reason := if anomaly then s9.2 else m.reason
      last_soc := some d.soc
      last_load := some d.load_kw
      last_solar := some d.solar_kw }
  (m', alert)

/-- Folding `evaluate` over a sequence of frames within one run. -/
def evalSeq (m : CyberState) : List SensorFrame → CyberState
  | [] => m
  | d :: ds => evalSeq (evaluate m d).1 ds

end CyberSecurityManager

/-! ## controller/safe_mode.py -/

/-- `enforce_safe_mode(sensors)`: (use_battery, use_generator, load_shed_level). -/
def enforce_safe_mode (sensor_soc : ℚ) : Bool × Bool × ℤ :=
  if sensor_soc < 3/10 then (false, true, 3) else (true, true, 3)

/-! ## controller/safety_invariants.py -/

namespace SafetyInvariants

/-- `SafetyInvariants.check`: `some msg` models `raise SafetyViolation(msg)`,
`none` models a normal return. -/
def check (soc : ℚ) (generator_cmd : String) (generator_available : Bool)
    (load_shed_level : ℤ) (safe_mode : Bool) : Option String :=
  if load_shed_level > 3 then
    some "Invalid load shedding level detected"
  else if soc > 0 ∧ load_shed_level = 3 ∧ safe_mode = false then
    some "Critical loads shed outside SAFE_MODE"
  else if soc < 3/10 ∧ generator_available = true then
    some "Battery SOC dropped below absolute minimum while generator was available"
  else if soc < 4/10 ∧ generator_available = true ∧ generator_cmd ≠ "START" then
    some "Generator not started during emergency SOC condition"
  else if safe_mode = true ∧ generator_cmd ≠ "START" then
    some "SAFE_MODE active but generator not forced ON"
  else if generator_cmd ∉ (["START", "STOP", "HOLD"] : List String) then
    some "Unknown generator command issued"
  else
    none

end SafetyInvariants

/-! ## utils/validator.py -/

def validate_phase5 (blackout critical_served : Bool) (soc : ℚ) : Bool :=
  if blackout then false
  else if ¬critical_served then false
  else if soc < 2/10 then false
  else true

/-! ## simulation/simulator.py -/

def CRITICAL_LOAD_KW : ℚ := 30
def POWER_EPS_KW : ℚ := 1/1000000

/-- One attack dict: `{type, start, end, spoof_value | (scale, offset)}`.
`Option` fields model keys a dict may omit, with the source's `a.get`
defaults applied at use sites. -/
structure AttackSpec where
  a_type : String
  start : ℤ
  stop : ℤ
  spoof_value : Option ℚ
  scale : Option ℚ
  offset : Option ℚ
deriving DecidableEq, Repr

namespace MicrogridSimulator

/-- The attack-injection loop: folds the attack list over
(measured_soc, sensed_load_kw, sensed_solar_kw, attack_active).
Load/solar spoofs always recompute from the true value, as in the source. -/
def applyAttacks (t : ℕ) (true_load_kw solar_kw : ℚ) :
    List AttackSpec → (ℚ × ℚ × ℚ × Bool) → ℚ × ℚ × ℚ × Bool
  | [], acc => acc
  | a :: rest, (m_soc, s_load, s_solar, active) =>
    if a.start ≤ (t : ℤ) ∧ (a.stop < 0 ∨ (t : ℤ) ≤ a.stop) then
      if a.a_type = "soc_spoof" then
        applyAttacks t true_load_kw solar_kw rest
          (a.spoof_value.getD m_soc, s_load, s_solar, true)
      else if a.a_type = "load_spoof" then
        applyAttacks t true_load_kw solar_kw rest
          (m_soc, true_load_kw * a.scale.getD 1 + a.offset.getD 0, s_solar, true)
      else if a.a_type = "solar_spoof" then
        applyAttacks t true_load_kw solar_kw rest
          (m_soc, s_load, solar_kw * a.scale.getD 1 + a.offset.getD 0, true)
      else
        applyAttacks t true_load_kw solar_kw rest (m_soc, s_load, s_solar, true)
    else
      applyAttacks t true_load_kw solar_kw rest (m_soc, s_load, s_solar, active)

/-- Per-step result record (the fields of the `results.append` dict that the
claims are about; percentage/reason/logging duplicates are omitted). -/
structure StepRecord where
  time : ℕ
  load_kw : ℚ
  sensed_load_kw : ℚ
  solar_kw : ℚ
  sensed_solar_kw : ℚ
  generator_kw : ℚ
  battery_kw : ℚ
  battery_charge_kw : ℚ
  battery_soc : ℚ
  generator_cmd : String
  state : String
  cyber_alert : Bool
  cyber_anomaly_now : Bool
  attack_active : Bool
  load_shed_level : ℤ
  served_load_kw : ℚ
  blackout : Bool
  critical_served : Bool
  /-- the record key spelled `unsafe` in the source (battery deep discharge,
  `soc < 0.20`); renamed here because that word is a Lean keyword. -/
  deep_discharge : Bool
  validator_ok : Bool
deriving DecidableEq, Repr, Inhabited

/-- Cross-step mutable state of one run: the battery, the generator's
`is_on`, the controller's `self.state`, the detector, the load history. -/
structure RunState where
  battery : Battery
  gen_on : Bool
  ctrl : SystemState
  cyber : CyberState
  history : List (ℕ × ℚ)
deriving DecidableEq, Repr

/-- `shed_fraction` computed from `load_shed_level` in the loop body. -/
def shedFraction (load_shed_level : ℤ) : ℚ :=
  if load_shed_level ≤ 0 then 0
  else if load_shed_level = 1 then 1/10
  else if load_shed_level = 2 then 3/10
  else 1

/-- The battery part of the power balance: the discharge-for-deficit block
and the charge-from-surplus block (the two blocks are separated only by
battery-independent computations in the source).  Returns
(discharged_kw, battery_charge_kw, battery after both). -/
def dispatchBattery (b : Battery) (remaining_kw excess_kw : ℚ)
    (use_battery : Bool) : ℚ × ℚ × Battery :=
  let dis := if remaining_kw > 0 ∧ use_battery = true
    then b.discharge remaining_kw 1 (3/10) else (0, b)
  let ch := if excess_kw > 0 ∧ use_battery = true
    then dis.2.charge excess_kw 1 else (0, dis.2)
  (dis.1, ch.1, ch.2)

/-- The whole computation of one `for t in range(horizon)` iteration:
the outcome of the safety-invariant check (`some msg` modelling a raised
`SafetyViolation(msg)`), the step's result record, and the successor state.
Everything after the invariant check in the source (logging, counters) has
no effect on the record. -/
def simStepData (solarAsset : SolarPV) (gen_max_power_kw : ℚ)
    (forecaster : Option (List (ℕ × ℚ) → List ℚ)) (attacks : List AttackSpec)
    (t : ℕ) (true_load_kw solar_raw : ℚ) (s : RunState) :
    Option String × StepRecord × RunState :=
  let solar_kw := solarAsset.get_power solar_raw
  let atk := applyAttacks t true_load_kw solar_kw attacks
    (s.battery.soc, true_load_kw, solar_kw, false)
  let measured_soc := atk.1
  let sensed_load_kw := atk.2.1
  let sensed_solar_kw := atk.2.2.1
  let attack_active := atk.2.2.2
  let frame : SensorFrame :=
    { soc := measured_soc, soc_secure := s.battery.soc
      load_kw := sensed_load_kw, load_kw_secure := true_load_kw
      solar_kw := sensed_solar_kw, solar_kw_secure := solar_kw }
  let cyberOut := CyberSecurityManager.evaluate s.cyber frame
  let cyber := cyberOut.1
  let cyber_alert := cyberOut.2
  let history := s.history ++ [(t, true_load_kw)]
  let load_forecast : Option (List ℚ) :=
    match forecaster with
    | some f => if 24 ≤ history.length then some (f history) else none
    | none => none
  let decOut := MicrogridController.decide s.ctrl sensed_solar_kw sensed_load_kw
    s.battery load_forecast true cyber_alert
  let ctrl := decOut.1
  let dec0 := decOut.2
  let dec : Decision :=
    if cyber_alert then
      let safe := enforce_safe_mode frame.soc
      { dec0 with generator_cmd := "START", state := "SAFE_MODE"
                  load_shed_level := safe.2.2
                  use_battery := safe.1, use_generator := safe.2.1 }
    else dec0
  let load_shed_level := dec.load_shed_level
  let critical_demand_kw := min true_load_kw CRITICAL_LOAD_KW
  let non_critical_demand_kw := max 0 (true_load_kw - critical_demand_kw)
  let served_load_kw :=
    critical_demand_kw + non_critical_demand_kw * (1 - shedFraction load_shed_level)
  let gen_on :=
    if dec.generator_cmd = "START" then true
    else if dec.generator_cmd = "STOP" then false
    else s.gen_on
  let remaining0 := max 0 (served_load_kw - solar_kw)
  let gen_kw := if gen_on ∧ dec.use_generator = true
    then min gen_max_power_kw remaining0 else 0
  let remaining := if gen_on ∧ dec.use_generator = true
    then max 0 (remaining0 - gen_kw) else remaining0
  let excess_kw := max 0 (solar_kw - served_load_kw)
  let bat := dispatchBattery s.battery remaining excess_kw dec.use_battery
  let discharged_kw := bat.1
  let battery_charge_kw := bat.2.1
  let battery2 := bat.2.2
  let supply_kw := solar_kw + gen_kw + discharged_kw
  let blackout := decide (supply_kw + POWER_EPS_KW < served_load_kw)
  let critical_served := decide (CRITICAL_LOAD_KW ≤ supply_kw)
  let deep_discharge := decide (battery2.soc < 2/10)
  let violation := SafetyInvariants.check battery2.soc dec.generator_cmd true
    load_shed_level (decide (dec.state = "SAFE_MODE"))
  let validator_ok := validate_phase5 blackout critical_served battery2.soc
  let record : StepRecord :=
    { time := t
      load_kw := true_load_kw
      sensed_load_kw := sensed_load_kw
      solar_kw := solar_kw
      sensed_solar_kw := sensed_solar_kw
      generator_kw := gen_kw
      battery_kw := discharged_kw
      battery_charge_kw := battery_charge_kw
      battery_soc := battery2.soc
      generator_cmd := dec.generator_cmd
      state := dec.state
      cyber_alert := cyber_alert
      cyber_anomaly_now := cyber.anomaly_now
      attack_active := attack_active
      load_shed_level := load_shed_level
      served_load_kw := served_load_kw
      blackout := blackout
      critical_served := critical_served
      deep_discharge := deep_discharge
      validator_ok := validator_ok }
  (violation, record,
    { battery := battery2, gen_on := gen_on, ctrl := ctrl
      cyber := cyber, history := history })

/-- One iteration as the loop sees it: a raised `SafetyViolation` is an
uncaught exception (`.error`), otherwise the record and successor state. -/
def simStep (solarAsset : SolarPV) (gen_max_power_kw : ℚ)
    (forecaster : Option (List (ℕ × ℚ) → List ℚ)) (attacks : List AttackSpec)
    (t : ℕ) (true_load_kw solar_raw : ℚ) (s : RunState) :
    Except String (StepRecord × RunState) :=
  match (simStepData solarAsset gen_max_power_kw forecaster attacks
      t true_load_kw solar_raw s).1 with
  | some msg => .error msg
  | none => .ok (simStepData solarAsset gen_max_power_kw forecaster attacks
      t true_load_kw solar_raw s).2

/-- The timestep loop: an uncaught `SafetyViolation` stops iteration and is
reported next to the records already accumulated. -/
def runAux (solarAsset : SolarPV) (gen_max_power_kw : ℚ)
    (forecaster : Option (List (ℕ × ℚ) → List ℚ)) (attacks : List AttackSpec) :
    ℕ → List (ℚ × ℚ) → RunState → List StepRecord × Option String
  | _, [], _ => ([], none)
  | t, (l, sr) :: rest, s =>
    match simStep solarAsset gen_max_power_kw forecaster attacks t l sr s with
    | .error msg => ([], some msg)
    | .ok (r, s') =>
      let out := runAux solarAsset gen_max_power_kw forecaster attacks (t + 1) rest s'
      (r :: out.1, out.2)

/-- `MicrogridSimulator.run(load_profile, solar_profile, attack)` for a
simulator built from fresh `CyberSecurityManager` and history, starting at
timestep 0; returns the result records and the uncaught violation, if any. -/
def run (solarAsset : SolarPV) (battery : Battery) (gen_max_power_kw : ℚ)
    (ctrl : SystemState) (forecaster : Option (List (ℕ × ℚ) → List ℚ))
    (load_profile solar_profile : List ℚ) (attacks : List AttackSpec) :
    List StepRecord × Option String :=
  runAux solarAsset gen_max_power_kw forecaster attacks 0
    (load_profile.zip solar_profile)
    { battery := battery, gen_on := false, ctrl := ctrl
      cyber := CyberSecurityManager.initState, history := [] }

end MicrogridSimulator

/-! ## Spec-side definitions

These definitions follow the wording of the specification / the claims and
are compared against the embedded source above. -/

/-- The claim's detection-rule list for `CyberSecurityManager` (spec §4.1,
rules 1–3): out-of-range soc, the three redundant-channel mismatches, and
the three jump checks against the manager's previously observed values. -/
def specDetectionRules (m : CyberState) (d : SensorFrame) : Prop :=
  (d.soc < 0 ∨ d.soc > 1) ∨
  |d.soc - d.soc_secure| > 5/100 ∨
  |d.load_kw - d.load_kw_secure| / max 1 |d.load_kw_secure| > 10/100 ∨
  |d.solar_kw - d.solar_kw_secure| / max 1 |d.solar_kw_secure| > 15/100 ∨
  CyberSecurityManager.jumpExceeds m.last_soc d.soc (8/100) ∨
  CyberSecurityManager.jumpExceeds m.last_load d.load_kw 500 ∨
  CyberSecurityManager.jumpExceeds m.last_solar d.solar_kw 800

instance (m : CyberState) (d : SensorFrame) : Decidable (specDetectionRules m d) :=
  inferInstanceAs (Decidable
    ((d.soc < 0 ∨ d.soc > 1) ∨
     |d.soc - d.soc_secure| > 5/100 ∨
     |d.load_kw - d.load_kw_secure| / max 1 |d.load_kw_secure| > 10/100 ∨
     |d.solar_kw - d.solar_kw_secure| / max 1 |d.solar_kw_secure| > 15/100 ∨
     CyberSecurityManager.jumpExceeds m.last_soc d.soc (8/100) ∨
     CyberSecurityManager.jumpExceeds m.last_load d.load_kw 500 ∨
     CyberSecurityManager.jumpExceeds m.last_solar d.solar_kw 800))

/-- The detection rules as the code actually implements them: the claim's
list plus the two negative-reading rules (`load_kw < 0`, `solar_kw < 0`). -/
def specDetectionRulesAmended (m : CyberState) (d : SensorFrame) : Prop :=
  specDetectionRules m d ∨ d.load_kw < 0 ∨ d.solar_kw < 0

instance (m : CyberState) (d : SensorFrame) :
    Decidable (specDetectionRulesAmended m d) :=
  inferInstanceAs (Decidable
    (specDetectionRules m d ∨ d.load_kw < 0 ∨ d.solar_kw < 0))

/-- The spec's per-tier shed fraction: 0% / 10% / 30% / 100% of
non-critical demand, tiers above 3 behaving as tier 3. -/
def specShedFraction (tier : ℤ) : ℚ :=
  if tier ≤ 0 then 0
  else if tier = 1 then 1/10
  else if tier = 2 then 3/10
  else 1

/-- The claim's served-load formula:
`min(true_load, 30) + max(0, true_load - 30) * (1 - f(tier))`. -/
def specServedLoad (load : ℚ) (tier : ℤ) : ℚ :=
  min load 30 + max 0 (load - 30) * (1 - specShedFraction tier)

/-- The claim's pure SOC integration:
`soc_t = soc_(t-1) + charge_t/capacity - discharge_t/capacity`,
returning the whole soc sequence. -/
def socIntegrate (capacity : ℚ) : ℚ → List (ℚ × ℚ) → List ℚ
  | _, [] => []
  | soc, (ch, dis) :: rest =>
    let soc' := soc + ch / capacity - dis / capacity
    soc' :: socIntegrate capacity soc' rest

/-- SOC integration with the battery's 1.0 ceiling:
`soc_t = min(1, soc_(t-1) + charge_t/capacity - discharge_t/capacity)`. -/
def socIntegrateClamped (capacity : ℚ) : ℚ → List (ℚ × ℚ) → List ℚ
  | _, [] => []
  | soc, (ch, dis) :: rest =>
    let soc' := min 1 (soc + ch / capacity - dis / capacity)
    soc' :: socIntegrateClamped capacity soc' rest

/-! ## Helper lemmas -/

/-- A detection clause leaves an already-raised anomaly flag raised, and
otherwise raises it exactly when its condition holds. -/
theorem CyberSecurityManager.ruleStep_fst (acc : Bool × Option String)
    (c : Prop) [Decidable c] (msg : String) :
    (CyberSecurityManager.ruleStep acc c msg).1 = (acc.1 || decide c) := by
  unfold CyberSecurityManager.ruleStep
  by_cases hc : c
  · by_cases ha : acc.1 = true <;> simp [hc, ha]
  · simp [hc]

/-! ## Claim C1 -/

/-- C1: whenever `MicrogridController.decide` is called with
`cyber_anomaly = true`, whatever the other arguments, the returned decision
has `safe_mode = true`, `generator_cmd = "START"`,
`battery_mode = "PROTECT"`, `load_shed_level = 3` and `state = "SAFE_MODE"`;
and conversely every decision `decide` can return with `safe_mode = true`
has `generator_cmd = "START"`. -/
theorem claim_C1_failsafe (st : SystemState) (solar_kw load_kw : ℚ)
    (b : Battery) (fc : Option (List ℚ)) (ga ca : Bool) :
    (ca = true →
      (MicrogridController.decide st solar_kw load_kw b fc ga ca).2.safe_mode = true ∧
      (MicrogridController.decide st solar_kw load_kw b fc ga ca).2.generator_cmd = "START" ∧
      (MicrogridController.decide st solar_kw load_kw b fc ga ca).2.battery_mode = "PROTECT" ∧
      (MicrogridController.decide st solar_kw load_kw b fc ga ca).2.load_shed_level = 3 ∧
      (MicrogridController.decide st solar_kw load_kw b fc ga ca).2.state = "SAFE_MODE") ∧
    ((MicrogridController.decide st solar_kw load_kw b fc ga ca).2.safe_mode = true →
      (MicrogridController.decide st solar_kw load_kw b fc ga ca).2.generator_cmd = "START") := by
  cases ca with
  | true =>
    exact ⟨fun _ => ⟨rfl, rfl, rfl, rfl, rfl⟩, fun _ => rfl⟩
  | false =>
    refine ⟨fun h => (nomatch h), fun h => ?_⟩
    revert h
    unfold MicrogridController.decide
    simp only [Bool.false_eq_true, if_false]
    split_ifs <;> intro h <;> cases h

/-- Witness for C1 at a concrete call. -/
theorem claim_C1_failsafe_witness :
    (MicrogridController.decide SystemState.NORMAL 0 100 ⟨10, 1/2, 50, 50⟩
        none true true).2.safe_mode = true ∧
    (MicrogridController.decide SystemState.NORMAL 0 100 ⟨10, 1/2, 50, 50⟩
        none true true).2.generator_cmd = "START" ∧
    (MicrogridController.decide SystemState.NORMAL 0 100 ⟨10, 1/2, 50, 50⟩
        none true true).2.battery_mode = "PROTECT" ∧
    (MicrogridController.decide SystemState.NORMAL 0 100 ⟨10, 1/2, 50, 50⟩
        none true true).2.load_shed_level = 3 ∧
    (MicrogridController.decide SystemState.NORMAL 0 100 ⟨10, 1/2, 50, 50⟩
        none true true).2.state = "SAFE_MODE" :=
  (claim_C1_failsafe SystemState.NORMAL 0 100 ⟨10, 1/2, 50, 50⟩ none true true).1 rfl

/-! ## Claim C9 -/

/-- C9: calling `Battery.discharge` on a battery whose state of charge is
strictly below the (well-formed) `min_soc` argument returns `0.0` energy and
nevertheless raises the stored state of charge to `min_soc`. -/
theorem claim_C9_discharge_raises_soc (b : Battery) (power_kw dt min_soc : ℚ)
    (hcap : 0 < b.capacity) (hp : 0 ≤ power_kw) (hdt : 0 ≤ dt)
    (hmd : 0 ≤ b.max_discharge_kw) (hm0 : 0 ≤ min_soc) (hm1 : min_soc ≤ 1)
    (hs : b.soc < min_soc) :
    (b.discharge power_kw dt min_soc).1 = 0 ∧
    (b.discharge power_kw dt min_soc).2.soc = min_soc ∧
    b.soc < (b.discharge power_kw dt min_soc).2.soc := by
  have hclamp : max 0 (min 1 min_soc) = min_soc := by
    rw [min_eq_right hm1, max_eq_right hm0]
  have henergy : 0 ≤ min power_kw b.max_discharge_kw * dt :=
    mul_nonneg (le_min hp hmd) hdt
  have havail : max 0 (b.soc * b.capacity - min_soc * b.capacity) = 0 := by
    apply max_eq_left
    have : b.soc * b.capacity ≤ min_soc * b.capacity :=
      mul_le_mul_of_nonneg_right hs.le hcap.le
    linarith
  have hactual : min (min power_kw b.max_discharge_kw * dt)
      (max 0 (b.soc * b.capacity - min_soc * b.capacity)) = 0 := by
    rw [havail]
    exact min_eq_right henergy
  unfold Battery.discharge
  simp only [hclamp, hactual]
  refine ⟨trivial, ?_, ?_⟩
  · show max min_soc (b.soc - 0 / b.capacity) = min_soc
    rw [zero_div, sub_zero]
    exact max_eq_left hs.le
  · show b.soc < max min_soc (b.soc - 0 / b.capacity)
    exact hs.trans_le (le_max_left _ _)

/-- Witness for C9 at a concrete call. -/
theorem claim_C9_discharge_raises_soc_witness :
    ((⟨10, 1/10, 50, 50⟩ : Battery).discharge 99 1 (3/10)).1 = 0 ∧
    ((⟨10, 1/10, 50, 50⟩ : Battery).discharge 99 1 (3/10)).2.soc = 3/10 ∧
    (⟨10, 1/10, 50, 50⟩ : Battery).soc <
      ((⟨10, 1/10, 50, 50⟩ : Battery).discharge 99 1 (3/10)).2.soc :=
  claim_C9_discharge_raises_soc ⟨10, 1/10, 50, 50⟩ 99 1 (3/10)
    (by norm_num) (by norm_num) (by norm_num) (by norm_num)
    (by norm_num) (by norm_num) (by norm_num)

/-! ## Claim C5 -/

/-- C5: the cyber alert latches monotonically — once `alert_active` is true,
no sequence of further `evaluate` calls within the run can reset it. -/
theorem claim_C5_alert_latches (m : CyberState) (frames : List SensorFrame)
    (h : m.alert_active = true) :
    (CyberSecurityManager.evalSeq m frames).alert_active = true := by
  induction frames generalizing m with
  | nil => exact h
  | cons d ds ih =>
    apply ih
    simp [CyberSecurityManager.evaluate, h]

/-- Witness for C5 at a concrete alerted state and frame sequence. -/
theorem claim_C5_alert_latches_witness :
    (CyberSecurityManager.evalSeq
      { alert_active := true, anomaly_now := false, reason := none
        last_soc := none, last_load := none, last_solar := none }
      [{ soc := 1/2, soc_secure := 1/2, load_kw := 100, load_kw_secure := 100
         solar_kw := 0, solar_kw_secure := 0 }]).alert_active = true :=
  claim_C5_alert_latches _ _ rfl

/-! ## Claim C3 -/

/-- C3 counterexample: with `soc = 0.32`, `generator_available = true`,
`cyber_anomaly = false` and a supplied forecast of mean 200 against a load
of 100 kW, `decide` takes the predictive branch, not the hard SOC
preemption: the decision is DISCHARGE / tier 0 with the stale state
`"NORMAL"`, not EMERGENCY / PROTECT / tier 2. -/
theorem claim_C3_counterexample :
    (MicrogridController.decide SystemState.NORMAL 0 100 ⟨10, 32/100, 50, 50⟩
        (some [200]) true false).2.state ≠ "EMERGENCY" ∧
    (MicrogridController.decide SystemState.NORMAL 0 100 ⟨10, 32/100, 50, 50⟩
        (some [200]) true false).2.battery_mode = "DISCHARGE" ∧
    (MicrogridController.decide SystemState.NORMAL 0 100 ⟨10, 32/100, 50, 50⟩
        (some [200]) true false).2.load_shed_level = 0 := by
  with_unfolding_all decide

/-- C3 as amended: with `generator_available = true`, `cyber_anomaly = false`
and `soc ≤ 0.35`, regardless of load and solar and of any supplied forecast
that does not itself trigger the predictive branch (none, empty, or mean at
most `1.10 * load`), the decision is EMERGENCY / START / PROTECT / tier 2. -/
theorem claim_C3_amended (st : SystemState) (solar_kw load_kw : ℚ) (b : Battery)
    (fc : Option (List ℚ)) (hsoc : b.soc ≤ 35/100)
    (hfc : MicrogridController.forecastTruthy fc = false ∨
           MicrogridController.forecastMean fc ≤ load_kw * (11/10)) :
    (MicrogridController.decide st solar_kw load_kw b fc true false).2.state = "EMERGENCY" ∧
    (MicrogridController.decide st solar_kw load_kw b fc true false).2.generator_cmd = "START" ∧
    (MicrogridController.decide st solar_kw load_kw b fc true false).2.battery_mode = "PROTECT" ∧
    (MicrogridController.decide st solar_kw load_kw b fc true false).2.load_shed_level = 2 := by
  have hpred : ¬ MicrogridController.predictiveGuard load_kw b.soc fc true := by
    rintro ⟨h1, h2, h3⟩
    rcases hfc with h | h
    · rw [h] at h1
      simp at h1
    · exact absurd h2 (not_lt.mpr h)
  have hhard : MicrogridController.hardSocGuard b.soc true :=
    ⟨rfl, hsoc⟩
  unfold MicrogridController.decide
  simp [hpred, hhard, SystemState.value, MicrogridController.LOAD_SHED_T2]

/-- Witness for the amended C3 at a concrete call (no forecast). -/
theorem claim_C3_amended_witness :
    (MicrogridController.decide SystemState.NORMAL 500 100 ⟨10, 32/100, 50, 50⟩
        none true false).2.state = "EMERGENCY" ∧
    (MicrogridController.decide SystemState.NORMAL 500 100 ⟨10, 32/100, 50, 50⟩
        none true false).2.generator_cmd = "START" ∧
    (MicrogridController.decide SystemState.NORMAL 500 100 ⟨10, 32/100, 50, 50⟩
        none true false).2.battery_mode = "PROTECT" ∧
    (MicrogridController.decide SystemState.NORMAL 500 100 ⟨10, 32/100, 50, 50⟩
        none true false).2.load_shed_level = 2 :=
  claim_C3_amended SystemState.NORMAL 500 100 ⟨10, 32/100, 50, 50⟩ none
    (by norm_num) (Or.inl rfl)

/-! ## Claim C10 -/

/-- C10: when `decide` returns through the predictive-preemption branch or
through the power-deficit branch, the controller's stored state is left
unchanged, and that (possibly stale) value is what the returned decision
reports in its `state` field. -/
theorem claim_C10_stale_state (st : SystemState) (solar_kw load_kw : ℚ)
    (b : Battery) (fc : Option (List ℚ)) (ga : Bool)
    (h : MicrogridController.predictiveGuard load_kw b.soc fc ga ∨
         (¬ MicrogridController.predictiveGuard load_kw b.soc fc ga ∧
          ¬ MicrogridController.hardSocGuard b.soc ga ∧
          MicrogridController.deficitGuard solar_kw load_kw ga)) :
    (MicrogridController.decide st solar_kw load_kw b fc ga false).1 = st ∧
    (MicrogridController.decide st solar_kw load_kw b fc ga false).2.state = st.value := by
  rcases h with h2 | ⟨h2, h3, h4⟩
  · simp [MicrogridController.decide, h2]
  · simp [MicrogridController.decide, h2, h3, h4]

/-- Witness for C10: a stale EMERGENCY state reported by a deficit-branch
decision. -/
theorem claim_C10_stale_state_witness :
    (MicrogridController.decide SystemState.EMERGENCY 0 100 ⟨10, 1/2, 50, 50⟩
        none true false).1 = SystemState.EMERGENCY ∧
    (MicrogridController.decide SystemState.EMERGENCY 0 100 ⟨10, 1/2, 50, 50⟩
        none true false).2.state = SystemState.EMERGENCY.value :=
  claim_C10_stale_state SystemState.EMERGENCY 0 100 ⟨10, 1/2, 50, 50⟩ none true
    (Or.inr ⟨by with_unfolding_all decide, by with_unfolding_all decide,
      by with_unfolding_all decide⟩)

/-! ## Claim C6 -/

/-- C6 counterexample: a frame with a negative load reading that agrees with
its secure channel (and clean soc/solar) makes `evaluate` set
`anomaly_now = true` through the negative-load rule, although none of the
claim's listed detection rules matches. -/
theorem claim_C6_counterexample :
    (CyberSecurityManager.evaluate CyberSecurityManager.initState
      { soc := 1/2, soc_secure := 1/2, load_kw := -5, load_kw_secure := -5
        solar_kw := 0, solar_kw_secure := 0 }).1.anomaly_now = true ∧
    ¬ specDetectionRules CyberSecurityManager.initState
      { soc := 1/2, soc_secure := 1/2, load_kw := -5, load_kw_secure := -5
        solar_kw := 0, solar_kw_secure := 0 } := by
  with_unfolding_all decide

/-- C6 as amended: after `evaluate(frame)`, `anomaly_now` is true if and
only if one of the claim's rules matches the frame or the frame carries a
negative load or a negative solar reading. -/
theorem claim_C6_amended (m : CyberState) (d : SensorFrame) :
    (CyberSecurityManager.evaluate m d).1.anomaly_now = true ↔
      specDetectionRulesAmended m d := by
  unfold CyberSecurityManager.evaluate
  simp only [CyberSecurityManager.ruleStep_fst, Bool.or_eq_true,
    decide_eq_true_iff, Bool.false_or]
  unfold specDetectionRulesAmended specDetectionRules
  unfold CyberSecurityManager.redundant_soc_mismatch
    CyberSecurityManager.redundant_load_mismatch_frac
    CyberSecurityManager.redundant_solar_mismatch_frac
    CyberSecurityManager.max_soc_jump_per_step
    CyberSecurityManager.max_load_jump_kw
    CyberSecurityManager.max_solar_jump_kw
  tauto

/-- Witness for the amended C6 at a concrete negative-load frame. -/
theorem claim_C6_amended_witness :
    (CyberSecurityManager.evaluate CyberSecurityManager.initState
      { soc := 1/2, soc_secure := 1/2, load_kw := -5, load_kw_secure := -5
        solar_kw := 0, solar_kw_secure := 0 }).1.anomaly_now = true :=
  (claim_C6_amended CyberSecurityManager.initState
      { soc := 1/2, soc_secure := 1/2, load_kw := -5, load_kw_secure := -5
        solar_kw := 0, solar_kw_secure := 0 }).mpr (by with_unfolding_all decide)

theorem Battery.discharge_fields (b : Battery) (p dt m : ℚ) :
    (b.discharge p dt m).2.capacity = b.capacity ∧
    (b.discharge p dt m).2.max_charge_kw = b.max_charge_kw ∧
    (b.discharge p dt m).2.max_discharge_kw = b.max_discharge_kw :=
  ⟨rfl, rfl, rfl⟩

theorem Battery.charge_fields (b : Battery) (p dt : ℚ) :
    (b.charge p dt).2.capacity = b.capacity ∧
    (b.charge p dt).2.max_charge_kw = b.max_charge_kw ∧
    (b.charge p dt).2.max_discharge_kw = b.max_discharge_kw :=
  ⟨rfl, rfl, rfl⟩

theorem MicrogridSimulator.dispatchBattery_fields (b : Battery)
    (rem exc : ℚ) (u : Bool) :
    (MicrogridSimulator.dispatchBattery b rem exc u).2.2.capacity = b.capacity ∧
    (MicrogridSimulator.dispatchBattery b rem exc u).2.2.max_charge_kw = b.max_charge_kw ∧
    (MicrogridSimulator.dispatchBattery b rem exc u).2.2.max_discharge_kw
      = b.max_discharge_kw := by
  unfold MicrogridSimulator.dispatchBattery
  split_ifs <;> exact ⟨rfl, rfl, rfl⟩


/-- Discharging with the loop's reserve `min_soc = 0.30` never leaves the
state of charge below 0.30, whatever the battery parameters. -/
theorem Battery.discharge_soc_floor (b : Battery) (p : ℚ) :
    3/10 ≤ (b.discharge p 1 (3/10)).2.soc := by
  unfold Battery.discharge
  simp only
  have hcl : max 0 (min 1 (3/10 : ℚ)) = 3/10 := by norm_num
  rw [hcl]
  exact le_max_left _ _

/-- Charging a battery with nonnegative charge limit and positive capacity
cannot lower the state of charge below 0.30. -/
theorem Battery.charge_soc_floor (b : Battery) (p : ℚ) (hcap : 0 < b.capacity)
    (hmc : 0 ≤ b.max_charge_kw) (hp : 0 ≤ p) (h0 : 3/10 ≤ b.soc) :
    3/10 ≤ (b.charge p 1).2.soc := by
  unfold Battery.charge
  simp only
  have he : 0 ≤ min p b.max_charge_kw * 1 := by
    rw [mul_one]
    exact le_min hp hmc
  have : (0:ℚ) ≤ min p b.max_charge_kw * 1 / b.capacity := div_nonneg he hcap.le
  exact le_min (by norm_num) (by linarith)

/-- The battery part of one step keeps the state of charge at or above 0.30
whenever it starts there (positive capacity, nonnegative charge limit). -/
theorem MicrogridSimulator.dispatchBattery_soc_floor (b : Battery)
    (rem exc : ℚ) (u : Bool) (hcap : 0 < b.capacity) (hmc : 0 ≤ b.max_charge_kw)
    (h0 : 3/10 ≤ b.soc) :
    3/10 ≤ (MicrogridSimulator.dispatchBattery b rem exc u).2.2.soc := by
  have hfloor := Battery.discharge_soc_floor b rem
  unfold MicrogridSimulator.dispatchBattery
  split_ifs with h1 h2 h3
  · exact Battery.charge_soc_floor _ _
      (by rw [(Battery.discharge_fields b rem 1 (3/10)).1]; exact hcap)
      (by rw [(Battery.discharge_fields b rem 1 (3/10)).2.1]; exact hmc)
      h2.1.le hfloor
  · exact hfloor
  · exact Battery.charge_soc_floor _ _ hcap hmc h3.1.le h0
  · exact h0

theorem Battery.discharge_fst (b : Battery) (p dt m : ℚ) :
    (b.discharge p dt m).1 = min (min p b.max_discharge_kw * dt)
      (max 0 (b.soc * b.capacity - max 0 (min 1 m) * b.capacity)) := rfl

theorem Battery.discharge_snd_soc (b : Battery) (p dt m : ℚ) :
    (b.discharge p dt m).2.soc
      = max (max 0 (min 1 m)) (b.soc - (b.discharge p dt m).1 / b.capacity) := rfl

theorem Battery.charge_fst (b : Battery) (p dt : ℚ) :
    (b.charge p dt).1 = min p b.max_charge_kw * dt := rfl

theorem Battery.charge_snd_soc (b : Battery) (p dt : ℚ) :
    (b.charge p dt).2.soc = min 1 (b.soc + (b.charge p dt).1 / b.capacity) := rfl

/-- With soc in `[0.30, 1]`, a dispatch discharge is exact bookkeeping:
the new soc is the old one minus the returned energy over capacity. -/
theorem Battery.discharge_exact (b : Battery) (p : ℚ) (hcap : 0 < b.capacity)
    (hmd : 0 ≤ b.max_discharge_kw) (hp : 0 ≤ p) (h0 : 3/10 ≤ b.soc)
    (hs1 : b.soc ≤ 1) :
    (b.discharge p 1 (3/10)).2.soc = b.soc - (b.discharge p 1 (3/10)).1 / b.capacity ∧
    0 ≤ (b.discharge p 1 (3/10)).1 ∧
    (b.discharge p 1 (3/10)).2.soc ≤ 1 := by
  have hcl : max 0 (min 1 (3/10 : ℚ)) = 3/10 := by norm_num
  have hfst := Battery.discharge_fst b p 1 (3/10)
  rw [hcl] at hfst
  have hA0 : 0 ≤ (b.discharge p 1 (3/10)).1 := by
    rw [hfst]
    exact le_min (by rw [mul_one]; exact le_min hp hmd) (le_max_left 0 _)
  have hAle : (b.discharge p 1 (3/10)).1 ≤ b.soc * b.capacity - 3/10 * b.capacity := by
    rw [hfst]
    refine (min_le_right _ _).trans ?_
    exact max_le (by nlinarith) le_rfl
  have hdiv : (b.discharge p 1 (3/10)).1 / b.capacity ≤ b.soc - 3/10 := by
    rw [div_le_iff₀ hcap]
    nlinarith
  have hdiv0 : 0 ≤ (b.discharge p 1 (3/10)).1 / b.capacity := div_nonneg hA0 hcap.le
  have hsoc : (b.discharge p 1 (3/10)).2.soc
      = b.soc - (b.discharge p 1 (3/10)).1 / b.capacity := by
    rw [Battery.discharge_snd_soc, hcl]
    exact max_eq_right (by linarith)
  refine ⟨hsoc, hA0, ?_⟩
  rw [hsoc]
  linarith

/-- A dispatch charge stores `min 1` of the linear update, keeps soc in
`[0.30, 1]`, and returns a nonnegative energy figure. -/
theorem Battery.charge_clamped (b : Battery) (p : ℚ) (hcap : 0 < b.capacity)
    (hmc : 0 ≤ b.max_charge_kw) (hp : 0 ≤ p) (h0 : 3/10 ≤ b.soc) :
    (b.charge p 1).2.soc = min 1 (b.soc + (b.charge p 1).1 / b.capacity) ∧
    0 ≤ (b.charge p 1).1 ∧ (b.charge p 1).2.soc ≤ 1 ∧
    3/10 ≤ (b.charge p 1).2.soc := by
  have h01 : 0 ≤ (b.charge p 1).1 := by
    rw [Battery.charge_fst, mul_one]
    exact le_min hp hmc
  have hdiv0 : 0 ≤ (b.charge p 1).1 / b.capacity := div_nonneg h01 hcap.le
  refine ⟨Battery.charge_snd_soc b p 1, h01, ?_, ?_⟩
  · rw [Battery.charge_snd_soc]
    exact min_le_left _ _
  · rw [Battery.charge_snd_soc]
    exact le_min (by norm_num) (by linarith)

/-- The one-step battery pipeline is exactly the ceiling-clamped linear SOC
update by the recorded charge and discharge, and keeps soc in `[0.30, 1]`. -/
theorem MicrogridSimulator.dispatchBattery_exact (b : Battery) (rem exc : ℚ)
    (u : Bool) (hcap : 0 < b.capacity) (hmc : 0 ≤ b.max_charge_kw)
    (hmd : 0 ≤ b.max_discharge_kw) (h0 : 3/10 ≤ b.soc) (hs1 : b.soc ≤ 1) :
    (MicrogridSimulator.dispatchBattery b rem exc u).2.2.soc
      = min 1 (b.soc + (MicrogridSimulator.dispatchBattery b rem exc u).2.1 / b.capacity
          - (MicrogridSimulator.dispatchBattery b rem exc u).1 / b.capacity) ∧
    3/10 ≤ (MicrogridSimulator.dispatchBattery b rem exc u).2.2.soc ∧
    (MicrogridSimulator.dispatchBattery b rem exc u).2.2.soc ≤ 1 := by
  unfold MicrogridSimulator.dispatchBattery
  split_ifs with hd hc hc2
  · obtain ⟨hds, hd0, hdle⟩ := Battery.discharge_exact b rem hcap hmd hd.1.le h0 hs1
    have hfl := Battery.discharge_soc_floor b rem
    have hcap2 : 0 < (b.discharge rem 1 (3/10)).2.capacity := by
      rw [(Battery.discharge_fields b rem 1 (3/10)).1]; exact hcap
    have hmc2 : 0 ≤ (b.discharge rem 1 (3/10)).2.max_charge_kw := by
      rw [(Battery.discharge_fields b rem 1 (3/10)).2.1]; exact hmc
    obtain ⟨hcs, hc0, hcle1, hcfl⟩ :=
      Battery.charge_clamped (b.discharge rem 1 (3/10)).2 exc hcap2 hmc2 hc.1.le hfl
    refine ⟨?_, hcfl, hcle1⟩
    rw [hcs, (Battery.discharge_fields b rem 1 (3/10)).1, hds]
    ring_nf
  · obtain ⟨hds, hd0, hdle⟩ := Battery.discharge_exact b rem hcap hmd hd.1.le h0 hs1
    have hdd0 : 0 ≤ (b.discharge rem 1 (3/10)).1 / b.capacity :=
      div_nonneg hd0 hcap.le
    refine ⟨?_, Battery.discharge_soc_floor b rem, by rw [hds]; linarith⟩
    rw [hds, zero_div, add_zero]
    exact (min_eq_right (by linarith)).symm
  · obtain ⟨hcs, hc0, hcle1, hcfl⟩ :=
      Battery.charge_clamped b exc hcap hmc hc2.1.le h0
    refine ⟨?_, hcfl, hcle1⟩
    rw [hcs, zero_div, sub_zero]
  · refine ⟨?_, h0, hs1⟩
    rw [zero_div, add_zero, sub_zero]
    exact (min_eq_right hs1).symm

/-- Inverting `simStep`: success and failure in terms of `simStepData`. -/
theorem MicrogridSimulator.simStep_ok_iff (sa : SolarPV) (gm : ℚ)
    (fc : Option (List (ℕ × ℚ) → List ℚ)) (atks : List AttackSpec)
    (t : ℕ) (l sr : ℚ) (s : MicrogridSimulator.RunState)
    (r : MicrogridSimulator.StepRecord) (s' : MicrogridSimulator.RunState) :
    MicrogridSimulator.simStep sa gm fc atks t l sr s = .ok (r, s') ↔
      (MicrogridSimulator.simStepData sa gm fc atks t l sr s).1 = none ∧
      (MicrogridSimulator.simStepData sa gm fc atks t l sr s).2 = (r, s') := by
  unfold MicrogridSimulator.simStep
  rcases hv : (MicrogridSimulator.simStepData sa gm fc atks t l sr s).1 with _ | msg <;>
    simp [hv]

theorem MicrogridSimulator.simStep_error_iff (sa : SolarPV) (gm : ℚ)
    (fc : Option (List (ℕ × ℚ) → List ℚ)) (atks : List AttackSpec)
    (t : ℕ) (l sr : ℚ) (s : MicrogridSimulator.RunState) (msg : String) :
    MicrogridSimulator.simStep sa gm fc atks t l sr s = .error msg ↔
      (MicrogridSimulator.simStepData sa gm fc atks t l sr s).1 = some msg := by
  unfold MicrogridSimulator.simStep
  rcases hv : (MicrogridSimulator.simStepData sa gm fc atks t l sr s).1 with _ | m <;>
    simp [hv]

/-- The step's violation slot is the safety checker's verdict at some
arguments (with `generator_available = true`, as the loop hard-codes). -/
theorem MicrogridSimulator.simStepData_violation (sa : SolarPV) (gm : ℚ)
    (fc : Option (List (ℕ × ℚ) → List ℚ)) (atks : List AttackSpec)
    (t : ℕ) (l sr : ℚ) (s : MicrogridSimulator.RunState) :
    ∃ soc cmd lvl sm, (MicrogridSimulator.simStepData sa gm fc atks t l sr s).1
      = SafetyInvariants.check soc cmd true lvl sm :=
  ⟨_, _, _, _, rfl⟩

/-- The step record's battery bookkeeping is the battery pipeline applied to
some per-step deficit / surplus / use flag; its soc is the successor
battery's; its load is the true load; its served load follows the
shed-fraction formula. -/
theorem MicrogridSimulator.simStepData_record (sa : SolarPV) (gm : ℚ)
    (fc : Option (List (ℕ × ℚ) → List ℚ)) (atks : List AttackSpec)
    (t : ℕ) (l sr : ℚ) (s : MicrogridSimulator.RunState) :
    ∃ rem exc u,
      (MicrogridSimulator.simStepData sa gm fc atks t l sr s).2.1.battery_kw
        = (MicrogridSimulator.dispatchBattery s.battery rem exc u).1 ∧
      (MicrogridSimulator.simStepData sa gm fc atks t l sr s).2.1.battery_charge_kw
        = (MicrogridSimulator.dispatchBattery s.battery rem exc u).2.1 ∧
      (MicrogridSimulator.simStepData sa gm fc atks t l sr s).2.2.battery
        = (MicrogridSimulator.dispatchBattery s.battery rem exc u).2.2 ∧
      (MicrogridSimulator.simStepData sa gm fc atks t l sr s).2.1.battery_soc
        = (MicrogridSimulator.simStepData sa gm fc atks t l sr s).2.2.battery.soc ∧
      (MicrogridSimulator.simStepData sa gm fc atks t l sr s).2.1.load_kw = l ∧
      (MicrogridSimulator.simStepData sa gm fc atks t l sr s).2.1.served_load_kw
        = min l 30 + max 0 (l - min l 30) *
            (1 - MicrogridSimulator.shedFraction
              (MicrogridSimulator.simStepData sa gm fc atks t l sr s).2.1.load_shed_level) :=
  ⟨_, _, _, rfl, rfl, rfl, rfl, rfl, rfl⟩

/-- SOC floor invariant along the loop: with positive capacity, nonnegative
charge limit and initial soc at least 0.30, every recorded soc is at least
0.30. -/
theorem MicrogridSimulator.runAux_soc_floor (sa : SolarPV) (gm : ℚ)
    (fc : Option (List (ℕ × ℚ) → List ℚ)) (atks : List AttackSpec) :
    ∀ (ps : List (ℚ × ℚ)) (t : ℕ) (s : MicrogridSimulator.RunState),
      0 < s.battery.capacity → 0 ≤ s.battery.max_charge_kw → 3/10 ≤ s.battery.soc →
      ∀ r ∈ (MicrogridSimulator.runAux sa gm fc atks t ps s).1, 3/10 ≤ r.battery_soc := by
  intro ps
  induction ps with
  | nil =>
    intro t s _ _ _ r hr
    simp [MicrogridSimulator.runAux] at hr
  | cons p rest ih =>
    obtain ⟨l, sr⟩ := p
    intro t s hcap hmc hsoc r hr
    rw [MicrogridSimulator.runAux] at hr
    rcases hE : MicrogridSimulator.simStep sa gm fc atks t l sr s with msg | rs
    · rw [hE] at hr
      simp at hr
    · obtain ⟨r0, s0⟩ := rs
      rw [hE] at hr
      simp only [List.mem_cons] at hr
      obtain ⟨-, h2⟩ := (MicrogridSimulator.simStep_ok_iff sa gm fc atks t l sr s r0 s0).mp hE
      obtain ⟨rem, exc, u, hbkw, hckw, hbat, hsoc0, hload, hserved⟩ :=
        MicrogridSimulator.simStepData_record sa gm fc atks t l sr s
      have hr0 : (MicrogridSimulator.simStepData sa gm fc atks t l sr s).2.1 = r0 := by
        rw [h2]
      have hs0 : (MicrogridSimulator.simStepData sa gm fc atks t l sr s).2.2 = s0 := by
        rw [h2]
      rw [hr0] at hbkw hckw hsoc0 hload hserved
      rw [hs0] at hbat hsoc0
      have hfloor0 : 3/10 ≤ s0.battery.soc := by
        rw [hbat]
        exact MicrogridSimulator.dispatchBattery_soc_floor s.battery rem exc u hcap hmc hsoc
      rcases hr with hr | hr
      · rw [hr, hsoc0]
        exact hfloor0
      · refine ih (t + 1) s0 ?_ ?_ hfloor0 r hr
        · rw [hbat, (MicrogridSimulator.dispatchBattery_fields s.battery rem exc u).1]
          exact hcap
        · rw [hbat, (MicrogridSimulator.dispatchBattery_fields s.battery rem exc u).2.1]
          exact hmc

/-- Every record's served load follows the shed-fraction formula applied to
its own recorded load and tier. -/
theorem MicrogridSimulator.runAux_served (sa : SolarPV) (gm : ℚ)
    (fc : Option (List (ℕ × ℚ) → List ℚ)) (atks : List AttackSpec) :
    ∀ (ps : List (ℚ × ℚ)) (t : ℕ) (s : MicrogridSimulator.RunState),
      ∀ r ∈ (MicrogridSimulator.runAux sa gm fc atks t ps s).1,
        r.served_load_kw = min r.load_kw 30 + max 0 (r.load_kw - min r.load_kw 30) *
          (1 - MicrogridSimulator.shedFraction r.load_shed_level) := by
  intro ps
  induction ps with
  | nil =>
    intro t s r hr
    simp [MicrogridSimulator.runAux] at hr
  | cons p rest ih =>
    obtain ⟨l, sr⟩ := p
    intro t s r hr
    rw [MicrogridSimulator.runAux] at hr
    rcases hE : MicrogridSimulator.simStep sa gm fc atks t l sr s with msg | rs
    · rw [hE] at hr
      simp at hr
    · obtain ⟨r0, s0⟩ := rs
      rw [hE] at hr
      simp only [List.mem_cons] at hr
      obtain ⟨-, h2⟩ := (MicrogridSimulator.simStep_ok_iff sa gm fc atks t l sr s r0 s0).mp hE
      obtain ⟨rem, exc, u, hbkw, hckw, hbat, hsoc0, hload, hserved⟩ :=
        MicrogridSimulator.simStepData_record sa gm fc atks t l sr s
      have hr0 : (MicrogridSimulator.simStepData sa gm fc atks t l sr s).2.1 = r0 := by
        rw [h2]
      rw [hr0] at hload hserved
      rcases hr with hr | hr
      · rw [hr, hserved, hload]
      · exact ih (t + 1) s0 r hr

/-- Replaying the recorded charge/discharge pairs through the
ceiling-clamped integration reproduces the recorded soc sequence, given a
well-formed battery starting in `[0.30, 1]`. -/
theorem MicrogridSimulator.runAux_soc_replay (sa : SolarPV) (gm : ℚ)
    (fc : Option (List (ℕ × ℚ) → List ℚ)) (atks : List AttackSpec) :
    ∀ (ps : List (ℚ × ℚ)) (t : ℕ) (s : MicrogridSimulator.RunState),
      0 < s.battery.capacity → 0 ≤ s.battery.max_charge_kw →
      0 ≤ s.battery.max_discharge_kw → 3/10 ≤ s.battery.soc → s.battery.soc ≤ 1 →
      socIntegrateClamped s.battery.capacity s.battery.soc
        ((MicrogridSimulator.runAux sa gm fc atks t ps s).1.map
          fun r => (r.battery_charge_kw, r.battery_kw))
        = (MicrogridSimulator.runAux sa gm fc atks t ps s).1.map
            fun r => r.battery_soc := by
  intro ps
  induction ps with
  | nil =>
    intro t s _ _ _ _ _
    simp [MicrogridSimulator.runAux, socIntegrateClamped]
  | cons p rest ih =>
    obtain ⟨l, sr⟩ := p
    intro t s hcap hmc hmd hsoc hs1
    rw [MicrogridSimulator.runAux]
    rcases hE : MicrogridSimulator.simStep sa gm fc atks t l sr s with msg | rs
    · simp [socIntegrateClamped]
    · obtain ⟨r0, s0⟩ := rs
      obtain ⟨-, h2⟩ := (MicrogridSimulator.simStep_ok_iff sa gm fc atks t l sr s r0 s0).mp hE
      obtain ⟨rem, exc, u, hbkw, hckw, hbat, hsoc0, hload, hserved⟩ :=
        MicrogridSimulator.simStepData_record sa gm fc atks t l sr s
      have hr0 : (MicrogridSimulator.simStepData sa gm fc atks t l sr s).2.1 = r0 := by
        rw [h2]
      have hs0 : (MicrogridSimulator.simStepData sa gm fc atks t l sr s).2.2 = s0 := by
        rw [h2]
      rw [hr0] at hbkw hckw hsoc0
      rw [hs0] at hbat hsoc0
      obtain ⟨hde, hdf, hd1⟩ := MicrogridSimulator.dispatchBattery_exact s.battery
        rem exc u hcap hmc hmd hsoc hs1
      have hhead : min 1 (s.battery.soc + r0.battery_charge_kw / s.battery.capacity
          - r0.battery_kw / s.battery.capacity) = r0.battery_soc := by
        rw [hsoc0, hbat, hbkw, hckw, hde]
      simp only [List.map_cons, socIntegrateClamped, hhead]
      have hcap0 : s0.battery.capacity = s.battery.capacity := by
        rw [hbat, (MicrogridSimulator.dispatchBattery_fields s.battery rem exc u).1]
      have hmc0 : 0 ≤ s0.battery.max_charge_kw := by
        rw [hbat, (MicrogridSimulator.dispatchBattery_fields s.battery rem exc u).2.1]
        exact hmc
      have hmd0 : 0 ≤ s0.battery.max_discharge_kw := by
        rw [hbat, (MicrogridSimulator.dispatchBattery_fields s.battery rem exc u).2.2]
        exact hmd
      have hsoc0' : r0.battery_soc = s0.battery.soc := by rw [hsoc0]
      have htail := ih (t + 1) s0 (by rw [hcap0]; exact hcap) hmc0 hmd0
        (by rw [hbat]; exact hdf) (by rw [hbat]; exact hd1)
      rw [hcap0] at htail
      rw [hsoc0', htail]

/-- The loop completes exactly when no step raised, and a raised
`SafetyViolation` truncates the trace strictly and carries a message the
checker produced. -/
theorem MicrogridSimulator.runAux_halting (sa : SolarPV) (gm : ℚ)
    (fc : Option (List (ℕ × ℚ) → List ℚ)) (atks : List AttackSpec) :
    ∀ (ps : List (ℚ × ℚ)) (t : ℕ) (s : MicrogridSimulator.RunState),
      ((MicrogridSimulator.runAux sa gm fc atks t ps s).2 = none ↔
        (MicrogridSimulator.runAux sa gm fc atks t ps s).1.length = ps.length) ∧
      ∀ msg, (MicrogridSimulator.runAux sa gm fc atks t ps s).2 = some msg →
        (MicrogridSimulator.runAux sa gm fc atks t ps s).1.length < ps.length ∧
        ∃ soc cmd lvl sm, SafetyInvariants.check soc cmd true lvl sm = some msg := by
  intro ps
  induction ps with
  | nil =>
    intro t s
    refine ⟨by simp [MicrogridSimulator.runAux], ?_⟩
    intro msg hmsg
    simp [MicrogridSimulator.runAux] at hmsg
  | cons p rest ih =>
    obtain ⟨l, sr⟩ := p
    intro t s
    rw [MicrogridSimulator.runAux]
    rcases hE : MicrogridSimulator.simStep sa gm fc atks t l sr s with msg0 | rs
    · simp only
      refine ⟨⟨fun h => absurd h (by simp), fun h => by simp at h⟩, ?_⟩
      intro msg hmsg
      have hmm : msg0 = msg := by simpa using hmsg
      subst hmm
      refine ⟨by simp, ?_⟩
      have herr := (MicrogridSimulator.simStep_error_iff sa gm fc atks t l sr s msg0).mp hE
      obtain ⟨soc, cmd, lvl, sm, hv⟩ :=
        MicrogridSimulator.simStepData_violation sa gm fc atks t l sr s
      refine ⟨soc, cmd, lvl, sm, ?_⟩
      rw [← hv]
      exact herr
    · obtain ⟨r0, s0⟩ := rs
      simp only
      obtain ⟨ihiff, ihsome⟩ := ih (t + 1) s0
      constructor
      · simp only [List.length_cons]
        constructor
        · intro h
          have hlen := ihiff.mp h
          omega
        · intro h
          apply ihiff.mpr
          omega
      · intro msg hmsg
        obtain ⟨hlt, hex⟩ := ihsome msg hmsg
        refine ⟨?_, hex⟩
        simp only [List.length_cons]
        omega

/-- The checker raises exactly on the disjunction of its six conditions. -/
theorem SafetyInvariants.check_isSome_iff (soc : ℚ) (cmd : String) (ga : Bool)
    (lvl : ℤ) (sm : Bool) :
    (SafetyInvariants.check soc cmd ga lvl sm).isSome = true ↔
      (lvl > 3 ∨
       (soc > 0 ∧ lvl = 3 ∧ sm = false) ∨
       (soc < 3/10 ∧ ga = true) ∨
       (soc < 4/10 ∧ ga = true ∧ cmd ≠ "START") ∨
       (sm = true ∧ cmd ≠ "START") ∨
       cmd ∉ (["START", "STOP", "HOLD"] : List String)) := by
  unfold SafetyInvariants.check
  split_ifs with h1 h2 h3 h4 h5 h6 <;> simp_all

theorem specShedFraction_mono (t1 t2 : ℤ) (h : t1 ≤ t2) :
    specShedFraction t1 ≤ specShedFraction t2 := by
  unfold specShedFraction
  split_ifs <;> (first | omega | norm_num)

theorem specShedFraction_bounds (t : ℤ) :
    0 ≤ specShedFraction t ∧ specShedFraction t ≤ 1 := by
  unfold specShedFraction
  split_ifs <;> norm_num

/-- The loop's served-load computation equals the claim's formula. -/
theorem specServedLoad_eq_loop (load : ℚ) (lvl : ℤ) :
    min load 30 + max 0 (load - min load 30) *
        (1 - MicrogridSimulator.shedFraction lvl)
      = specServedLoad load lvl := by
  have hf : MicrogridSimulator.shedFraction = specShedFraction := rfl
  rw [hf]
  unfold specServedLoad
  have hm : max 0 (load - min load 30) = max 0 (load - 30) := by
    rcases le_total load 30 with h | h
    · rw [min_eq_left h, sub_self, max_eq_left (by linarith : load - 30 ≤ 0)]
      simp
    · rw [min_eq_right h]
  rw [hm]

theorem specServedLoad_mono (load : ℚ) (t1 t2 : ℤ) (h : t1 ≤ t2) :
    specServedLoad load t2 ≤ specServedLoad load t1 := by
  unfold specServedLoad
  have hf := specShedFraction_mono t1 t2 h
  have h0 : (0:ℚ) ≤ max 0 (load - 30) := le_max_left 0 _
  have hmul : max 0 (load - 30) * (1 - specShedFraction t2)
      ≤ max 0 (load - 30) * (1 - specShedFraction t1) :=
    mul_le_mul_of_nonneg_left (by linarith) h0
  linarith

theorem specServedLoad_floor (load : ℚ) (t : ℤ) :
    min load 30 ≤ specServedLoad load t := by
  unfold specServedLoad
  have h0 : (0:ℚ) ≤ max 0 (load - 30) := le_max_left 0 _
  have hb := specShedFraction_bounds t
  nlinarith [mul_nonneg h0 (by linarith : (0:ℚ) ≤ 1 - specShedFraction t)]

/-! ## Claim C2 -/

/-- C2: in every simulation run whose battery starts with soc at least 0.30
(well-formed battery: positive capacity, nonnegative charge limit), every
recorded `battery_soc` is at least 0.30 — dispatch discharge is floored at
0.30 and charging only raises soc.  (`generator_available` is hard-coded
true by the loop, as the claim notes.) -/
theorem claim_C2_soc_floor (sa : SolarPV) (b : Battery) (gm : ℚ)
    (ctrl : SystemState) (fc : Option (List (ℕ × ℚ) → List ℚ))
    (load_profile solar_profile : List ℚ) (atks : List AttackSpec)
    (hcap : 0 < b.capacity) (hmc : 0 ≤ b.max_charge_kw) (hsoc : 3/10 ≤ b.soc) :
    ∀ r ∈ (MicrogridSimulator.run sa b gm ctrl fc load_profile solar_profile atks).1,
      3/10 ≤ r.battery_soc := by
  intro r hr
  exact MicrogridSimulator.runAux_soc_floor sa gm fc atks _ 0 _ hcap hmc hsoc r hr

/-- Witness for C2 on a concrete one-step run. -/
theorem claim_C2_soc_floor_witness :
    3/10 ≤ ((MicrogridSimulator.run ⟨100⟩ ⟨10, 1/2, 50, 50⟩ 50 SystemState.NORMAL
      none [100] [0] []).1.headI).battery_soc :=
  claim_C2_soc_floor ⟨100⟩ ⟨10, 1/2, 50, 50⟩ 50 SystemState.NORMAL none [100] [0] []
    (by norm_num) (by norm_num) (by norm_num) _ (by with_unfolding_all decide)

/-! ## Claim C7 -/

/-- C7: every recorded served load equals the spec formula
`min(load, 30) + max(0, load - 30) * (1 - f(tier))`; the served load is
monotonically non-increasing in the shed tier; and the critical floor
`min(load, 30)` is always included in the served demand. -/
theorem claim_C7_served_load :
    (∀ (sa : SolarPV) (b : Battery) (gm : ℚ) (ctrl : SystemState)
        (fc : Option (List (ℕ × ℚ) → List ℚ)) (lp sp : List ℚ)
        (atks : List AttackSpec),
        ∀ r ∈ (MicrogridSimulator.run sa b gm ctrl fc lp sp atks).1,
          r.served_load_kw = specServedLoad r.load_kw r.load_shed_level) ∧
    (∀ (load : ℚ) (t1 t2 : ℤ), t1 ≤ t2 →
        specServedLoad load t2 ≤ specServedLoad load t1) ∧
    (∀ (load : ℚ) (t : ℤ), min load 30 ≤ specServedLoad load t) := by
  refine ⟨?_, specServedLoad_mono, specServedLoad_floor⟩
  intro sa b gm ctrl fc lp sp atks r hr
  have h := MicrogridSimulator.runAux_served sa gm fc atks _ 0 _ r hr
  rw [h, specServedLoad_eq_loop]

/-! ## Claim C8 -/

/-- C8 counterexample: a run whose battery starts at soc 0.10 calls
`discharge`, which records zero drawn energy but snaps the soc up to the
0.30 reserve; the claim's pure linear integration therefore does not
reproduce the recorded soc sequence. -/
theorem claim_C8_counterexample :
    socIntegrate (10 : ℚ) (1/10)
      ((MicrogridSimulator.run ⟨100⟩ ⟨10, 1/10, 50, 50⟩ 50 SystemState.NORMAL none
        [200] [0] []).1.map fun r => (r.battery_charge_kw, r.battery_kw)) ≠
      (MicrogridSimulator.run ⟨100⟩ ⟨10, 1/10, 50, 50⟩ 50 SystemState.NORMAL none
        [200] [0] []).1.map fun r => r.battery_soc := by
  with_unfolding_all decide

/-- C8 as amended: for a well-formed battery starting with soc in
`[0.30, 1]`, replaying the recorded per-step charge/discharge through the
SOC integration with the battery's 1.0 ceiling
(`soc_t = min(1, soc_(t-1) + charge/capacity - discharge/capacity)`)
reproduces the recorded `battery_soc` sequence exactly. -/
theorem claim_C8_amended_replay (sa : SolarPV) (b : Battery) (gm : ℚ)
    (ctrl : SystemState) (fc : Option (List (ℕ × ℚ) → List ℚ))
    (lp sp : List ℚ) (atks : List AttackSpec)
    (hcap : 0 < b.capacity) (hmc : 0 ≤ b.max_charge_kw)
    (hmd : 0 ≤ b.max_discharge_kw) (h0 : 3/10 ≤ b.soc) (hs1 : b.soc ≤ 1) :
    socIntegrateClamped b.capacity b.soc
      ((MicrogridSimulator.run sa b gm ctrl fc lp sp atks).1.map
        fun r => (r.battery_charge_kw, r.battery_kw))
      = (MicrogridSimulator.run sa b gm ctrl fc lp sp atks).1.map
          fun r => r.battery_soc := by
  unfold MicrogridSimulator.run
  exact MicrogridSimulator.runAux_soc_replay sa gm fc atks (lp.zip sp) 0
    { battery := b, gen_on := false, ctrl := ctrl
      cyber := CyberSecurityManager.initState, history := [] } hcap hmc hmd h0 hs1

/-- Witness for the amended C8 on a concrete one-step run. -/
theorem claim_C8_amended_replay_witness :
    socIntegrateClamped (⟨10, 1/2, 50, 50⟩ : Battery).capacity
      (⟨10, 1/2, 50, 50⟩ : Battery).soc
      ((MicrogridSimulator.run ⟨100⟩ ⟨10, 1/2, 50, 50⟩ 50 SystemState.NORMAL
        none [100] [0] []).1.map fun r => (r.battery_charge_kw, r.battery_kw))
      = (MicrogridSimulator.run ⟨100⟩ ⟨10, 1/2, 50, 50⟩ 50 SystemState.NORMAL
          none [100] [0] []).1.map fun r => r.battery_soc :=
  claim_C8_amended_replay ⟨100⟩ ⟨10, 1/2, 50, 50⟩ 50 SystemState.NORMAL none
    [100] [0] [] (by norm_num) (by norm_num) (by norm_num) (by norm_num) (by norm_num)

/-! ## Claim C4 -/

/-- C4: `SafetyInvariants.check` raises exactly when one of the six listed
conditions holds, and the loop does not catch the exception: a run
completes (no violation) exactly when it records every timestep, and a
violation truncates the trace strictly, carrying a checker message. -/
theorem claim_C4_check_and_halt :
    (∀ (soc : ℚ) (cmd : String) (ga : Bool) (lvl : ℤ) (sm : Bool),
      (SafetyInvariants.check soc cmd ga lvl sm).isSome = true ↔
        (lvl > 3 ∨
         (soc > 0 ∧ lvl = 3 ∧ sm = false) ∨
         (soc < 3/10 ∧ ga = true) ∨
         (soc < 4/10 ∧ ga = true ∧ cmd ≠ "START") ∨
         (sm = true ∧ cmd ≠ "START") ∨
         cmd ∉ (["START", "STOP", "HOLD"] : List String))) ∧
    (∀ (sa : SolarPV) (gm : ℚ) (fc : Option (List (ℕ × ℚ) → List ℚ))
        (atks : List AttackSpec) (ps : List (ℚ × ℚ)) (t : ℕ)
        (s : MicrogridSimulator.RunState),
      ((MicrogridSimulator.runAux sa gm fc atks t ps s).2 = none ↔
        (MicrogridSimulator.runAux sa gm fc atks t ps s).1.length = ps.length) ∧
      ∀ msg, (MicrogridSimulator.runAux sa gm fc atks t ps s).2 = some msg →
        (MicrogridSimulator.runAux sa gm fc atks t ps s).1.length < ps.length ∧
        ∃ soc cmd lvl sm, SafetyInvariants.check soc cmd true lvl sm = some msg) :=
  ⟨SafetyInvariants.check_isSome_iff,
   fun sa gm fc atks ps t s => MicrogridSimulator.runAux_halting sa gm fc atks ps t s⟩
